import Mathlib

/-!
Shallow embedding of `src/lib/libvarnish/vsa.c` (the "suckaddr" generic
address value abstraction of varnish-cache).

Modelling conventions:
* Byte buffers are `List Nat` (each element a byte value).  A
  `struct suckaddr` is its 32-byte in-memory image on a typical
  ILP32/LP64 little-endian platform without `sa_len`
  (e.g. Linux/glibc x86-64):
    - offset 0..3  : `unsigned magic` (little endian)
    - offset 4..31 : the union `u` (28 bytes, the size of
      `struct sockaddr_in6`)
  Within the union (offsets relative to the union start):
    - `sa_family` / `sin_family` / `sin6_family` : offsets 0..1
      (little-endian `sa_family_t`, a 16-bit integer)
    - `sin_port` (sockaddr_in)  : offsets 2..3 (stored bytes, network order)
    - `sin_addr` (sockaddr_in)  : offsets 4..7
    - `sin_zero` (sockaddr_in)  : offsets 8..15
    - `sin6_port` (sockaddr_in6): offsets 2..3
    - `sin6_flowinfo`           : offsets 4..7
    - `sin6_addr`               : offsets 8..23
    - `sin6_scope_id`           : offsets 24..27
  `sizeof (struct sockaddr_in) = 16`, `sizeof (struct sockaddr_in6) = 28`,
  `sizeof (struct sockaddr_un) = 110`, `sizeof (struct suckaddr) = 32`.
* `memcmp` is modelled sign-normalised (-1/0/1), which carries exactly the
  information the C callers rely on.
* A C function that can abort through a failed assertion
  (`CHECK_OBJ_NOTNULL`, `assert`, `WRONG`) is modelled with a result type
  that has an explicit abort outcome, so "does not abort" is statable.
* The macros `INIT_OBJ` / `CHECK_OBJ_NOTNULL` / `VALID_OBJ` come from
  `miniobj.h`, which is not part of the provided sources.
  Modelled from the spec: `INIT_OBJ` zero-initializes the entire
  fixed-size storage and stamps the validity tag (spec section 4.4
  "zero-initializes destination, stamps the validity tag"; section 3
  "a validity tag ... set at construction"); `CHECK_OBJ_NOTNULL` is the
  fatal validity-tag check performed on every read access;
  `VALID_OBJ` is the non-fatal form of the same check.
* The OS calls `getsockname` / `getpeername` are modelled by an abstract
  parameter `os : Option (List Nat)`: `none` is an OS failure, `some w`
  is success having written the byte string `w` (at most the passed
  capacity, 28 bytes) into the union.
-/

namespace VSA

/-- `AF_UNIX` (= `PF_UNIX`) family constant, Linux value. -/
def AF_UNIX : Nat := 1

/-- `AF_INET` (= `PF_INET`) family constant. -/
def AF_INET : Nat := 2

/-- `AF_INET6` (= `PF_INET6`) family constant, Linux value. -/
def AF_INET6 : Nat := 10

/-- `sizeof (struct sockaddr_in)`. -/
def sizeof_sockaddr_in : Nat := 16

/-- `sizeof (struct sockaddr_in6)`. -/
def sizeof_sockaddr_in6 : Nat := 28

/-- `sizeof (struct sockaddr_un)`. -/
def sizeof_sockaddr_un : Nat := 110

/-- `const size_t vsa_suckaddr_len = sizeof (struct suckaddr)` = 32:
4 bytes of magic plus the 28-byte union. -/
def vsa_suckaddr_len : Nat := 32

/-- Size of the union member `u` of `struct suckaddr`
(`sizeof (sua->u)` = `sizeof (struct sockaddr_in6)` = 28). -/
def sizeof_u : Nat := 28

/-- `#define SUCKADDR_MAGIC 0x4b1e9335`, as its four little-endian bytes. -/
def suckaddrMagicBytes : List Nat := [0x35, 0x93, 0x1e, 0x4b]

/-- `n` zero bytes (`memset(_, 0, n)`). -/
def zeros (n : Nat) : List Nat := List.replicate n 0

/-- Read the 16-bit little-endian `sa_family` field at the start of a
`struct sockaddr` byte image. -/
def sa_family (s : List Nat) : Nat := s.getD 0 0 + 256 * s.getD 1 0

/-- The two bytes that store a 16-bit `sa_family_t` value (little endian). -/
def famBytes (fam : Nat) : List Nat := [fam % 256, fam / 256 % 256]

/-- `sua_len`: size of the `struct sockaddr` variant for the family found
in the buffer, or 0 for an unknown family (vsa.c lines 230-244). -/
def sua_len (s : List Nat) : Nat :=
  if sa_family s = AF_INET then sizeof_sockaddr_in
  else if sa_family s = AF_INET6 then sizeof_sockaddr_in6
  else if sa_family s = AF_UNIX then sizeof_sockaddr_un
  else 0

/-- `VALID_OBJ`-style magic check on a suckaddr byte image:
the first four bytes are the `SUCKADDR_MAGIC` little-endian image.
Modelled from the spec: `VALID_OBJ` / `CHECK_OBJ_NOTNULL`
(miniobj.h, not in the provided sources) test the validity tag. -/
def checkMagic (v : List Nat) : Bool := v.take 4 = suckaddrMagicBytes

/-- Family discriminant of a suckaddr byte image: `sua->u.sa.sa_family`,
read from the union, which starts at offset 4. -/
def suaFam (v : List Nat) : Nat := sa_family (v.drop 4)

/-- `sua->u.sa4.sin_addr` of a suckaddr image: 4 bytes at union offset 4,
i.e. suckaddr offset 8. -/
def addr4 (v : List Nat) : List Nat := (v.drop 8).take 4

/-- `sua->u.sa6.sin6_addr` of a suckaddr image: 16 bytes at union
offset 8, i.e. suckaddr offset 12. -/
def addr6 (v : List Nat) : List Nat := (v.drop 12).take 16

/-- `sua->u.sa4.sin_port` of a suckaddr image: 2 bytes at union offset 2,
i.e. suckaddr offset 6, stored in network byte order. -/
def port4 (v : List Nat) : List Nat := (v.drop 6).take 2

/-- `sua->u.sa6.sin6_port` of a suckaddr image: same offset as `port4`
(both ports sit at union offset 2). -/
def port6 (v : List Nat) : List Nat := (v.drop 6).take 2

/-- `ntohs` on a two-byte network-order field: first byte is the most
significant. -/
def ntohs (b : List Nat) : Nat := 256 * b.getD 0 0 + b.getD 1 0

/-- Result of `VSA_Build`: a constructed suckaddr, a NULL return, or the
`WRONG("VSA protocol vs. size")` abort. -/
inductive BuildResult where
  | ok (sua : List Nat)
  | fail
  | wrong
deriving DecidableEq

/-- The suckaddr image produced by `INIT_OBJ` (zero fill + magic stamp,
modelled from the spec, see header) followed by `memcpy` of the union
bytes `u` into the union region. -/
def mkSuckaddr (u : List Nat) : List Nat :=
  suckaddrMagicBytes ++ (u.take sizeof_u ++ zeros (sizeof_u - u.length))

/-- `VSA_Build(d, s, sal)` (vsa.c lines 310-340). `d` is not modelled
(the function fully overwrites it); `s` is the raw sockaddr byte buffer,
`sal` the length argument.  The platform has no `sa_len` member, so the
`HAVE_STRUCT_SOCKADDR_SA_LEN` stamping is compiled out. -/
def VSA_Build (s : List Nat) (sal : Nat) : BuildResult :=
  let l := sua_len s
  if l = 0 ∨ l ≠ sal then .fail
  else if l = sizeof_sockaddr_in then .ok (mkSuckaddr (s.take l))
  else if l = sizeof_sockaddr_in6 then .ok (mkSuckaddr (s.take l))
  else .wrong

/-- Result of `VSA_BuildFAP`: a constructed suckaddr, NULL with
`errno = EINVAL`, NULL with `errno = EAFNOSUPPORT`, a NULL propagated
from `VSA_Build`, or an abort propagated from `VSA_Build`. -/
inductive FAPResult where
  | ok (sua : List Nat)
  | einval
  | eafnosupport
  | buildNull
  | abort
deriving DecidableEq

/-- Map a delegated `VSA_Build` outcome to a `VSA_BuildFAP` outcome. -/
def liftBuild : BuildResult → FAPResult
  | .ok v => .ok v
  | .fail => .buildNull
  | .wrong => .abort

/-- One address/port argument of `VSA_BuildFAP`: `none` models a NULL
pointer.  Returns the bytes that end up in the (zero-initialised) field
of size `want`, or `none` for the invalid-length `break`. -/
def fapArg (x : Option (List Nat)) (xl want : Nat) : Option (List Nat) :=
  match x with
  | none => some (zeros want)
  | some b =>
    if xl = 0 then some (zeros want)
    else if xl ≠ want then none
    else some (b.take xl)

/-- The byte image of the zeroed `struct sockaddr_in sin4` after
`sin4.sin_family = fam` and the optional address/port `memcpy`s:
family(2) ++ port(2) ++ addr(4) ++ sin_zero(8). -/
def mkSin4 (fam : Nat) (addr port : List Nat) : List Nat :=
  famBytes fam ++ (port ++ (addr ++ zeros 8))

/-- The byte image of the zeroed `struct sockaddr_in6 sin6` after
`sin6.sin6_family = fam` and the optional address/port `memcpy`s:
family(2) ++ port(2) ++ flowinfo(4) ++ addr(16) ++ scope_id(4). -/
def mkSin6 (fam : Nat) (addr port : List Nat) : List Nat :=
  famBytes fam ++ (port ++ (zeros 4 ++ (addr ++ zeros 4)))

/-- `VSA_BuildFAP(d, fam, a, al, p, pl)` (vsa.c lines 265-307).
The address argument is checked (and copied) before the port argument,
as in the C; a failed check is the `break` to the `EINVAL` return. -/
def VSA_BuildFAP (fam : Nat) (a : Option (List Nat)) (al : Nat)
    (p : Option (List Nat)) (pl : Nat) : FAPResult :=
  if fam = AF_INET then
    match fapArg a al 4 with
    | none => .einval
    | some ab =>
      match fapArg p pl 2 with
      | none => .einval
      | some pb =>
          liftBuild (VSA_Build (mkSin4 fam ab pb) sizeof_sockaddr_in)
  else if fam = AF_INET6 then
    match fapArg a al 16 with
    | none => .einval
    | some ab =>
      match fapArg p pl 2 with
      | none => .einval
      | some pb =>
          liftBuild (VSA_Build (mkSin6 fam ab pb) sizeof_sockaddr_in6)
  else .eafnosupport

/-- Result of `VSA_GetPtr`: either the `CHECK_OBJ_NOTNULL` abort, or a
return value `ret` together with what was stored through `dst`
(`none` = NULL pointer; in the `sua == NULL` early return `dst` is not
written, modelled as `none` as well). -/
inductive PtrResult where
  | abort
  | res (dst : Option (List Nat)) (ret : Int)
deriving DecidableEq

/-- `VSA_GetPtr(sua, dst)` (vsa.c lines 202-224).  The two
`assert(sua->u.sa.sa_family == sua->u.saN.sinN_family)` lines compare
two reads of the same two bytes of the union and can never fail in this
byte-image model, so they do not appear as an abort case. -/
def VSA_GetPtr (sua : Option (List Nat)) : PtrResult :=
  match sua with
  | none => .res none (-1)
  | some v =>
    if ¬ checkMagic v then .abort
    else if suaFam v = AF_INET then .res (some (addr4 v)) (suaFam v)
    else if suaFam v = AF_INET6 then .res (some (addr6 v)) (suaFam v)
    else .res none (-1)

/-- `VSA_Get_Proto(sua)` (vsa.c lines 356-362): `none` is the
`CHECK_OBJ_NOTNULL` abort. -/
def VSA_Get_Proto (v : List Nat) : Option Nat :=
  if checkMagic v then some (suaFam v) else none

/-- `VSA_Sane(sua)` (vsa.c lines 364-368). -/
def VSA_Sane (v : List Nat) : Bool :=
  checkMagic v && decide (sua_len (v.drop 4) ≠ 0)

/-- Sign-normalised `memcmp` over byte lists. -/
def memcmpBytes : List Nat → List Nat → Int
  | [], [] => 0
  | [], _ :: _ => -1
  | _ :: _, [] => 1
  | x :: xs, y :: ys =>
    if x < y then -1 else if y < x then 1 else memcmpBytes xs ys

/-- `VSA_Compare(sua1, sua2)` (vsa.c lines 370-377):
`memcmp(sua1, sua2, vsa_suckaddr_len)` after both magic checks
(`none` is the abort). -/
def VSA_Compare (v1 v2 : List Nat) : Option Int :=
  if checkMagic v1 && checkMagic v2 then
    some (memcmpBytes (v1.take vsa_suckaddr_len) (v2.take vsa_suckaddr_len))
  else none

/-- `VSA_Compare_IP(sua1, sua2)` (vsa.c lines 379-400): `none` covers
both the failed `assert(VSA_Sane(_))` and the `WRONG("Just plain
insane")` aborts. -/
def VSA_Compare_IP (v1 v2 : List Nat) : Option Int :=
  if VSA_Sane v1 && VSA_Sane v2 then
    if suaFam v1 ≠ suaFam v2 then some (-1)
    else if suaFam v1 = AF_INET then
      some (memcmpBytes (addr4 v1) (addr4 v2))
    else if suaFam v1 = AF_INET6 then
      some (memcmpBytes (addr6 v1) (addr6 v2))
    else none
  else none

/-- `VSA_Clone(sua)` (vsa.c lines 402-412): `calloc` of
`vsa_suckaddr_len` zeroed bytes then `memcpy` of `vsa_suckaddr_len`
bytes from the source; `none` is the failed `assert(VSA_Sane(sua))`.
Allocation is assumed to succeed (`XXXAN`). -/
def VSA_Clone (v : List Nat) : Option (List Nat) :=
  if VSA_Sane v then some (v.take vsa_suckaddr_len) else none

/-- `VSA_Port(sua)` (vsa.c lines 414-427): `none` is the
`CHECK_OBJ_NOTNULL` abort. -/
def VSA_Port (v : List Nat) : Option Nat :=
  if checkMagic v then
    if suaFam v = AF_INET then some (ntohs (port4 v))
    else if suaFam v = AF_INET6 then some (ntohs (port6 v))
    else some 0
  else none

/-- Result of the `VSA_getname`-generated wrappers `VSA_getsockname` /
`VSA_getpeername`. -/
inductive GetnameResult where
  | ok (sua : List Nat)
  | einval
  | osfail
deriving DecidableEq

/-- The `VSA_getname(which)` macro body (vsa.c lines 429-453),
instantiated for either `getsockname` or `getpeername`.  The OS call is
the abstract parameter `os` (see header); it writes at most
`sl = sizeof (sua->u)` = 28 bytes over the `INIT_OBJ`-zeroed union. -/
def VSA_getname (os : Option (List Nat)) (l : Nat) : GetnameResult :=
  if l ≠ vsa_suckaddr_len then .einval
  else
    match os with
    | none => .osfail
    | some w =>
        .ok (suckaddrMagicBytes ++ (w.take sizeof_u ++ zeros (sizeof_u - w.length)))

/-- Every byte of a suckaddr image outside the active variant's region
(past offset `4 + sua_len` and within the 32-byte storage) is zero. -/
def zeroOutside (v : List Nat) : Prop :=
  ∀ i, 4 + sua_len (v.drop 4) ≤ i → i < vsa_suckaddr_len → v.getD i 0 = 0

/-- Example IPv4 address bytes 127.0.0.1. -/
def exAddr4 : List Nat := [127, 0, 0, 1]

/-- Example IPv6 address bytes for `::1`. -/
def exAddr6 : List Nat := zeros 15 ++ [1]

/-- Example network-order port bytes for 8080. -/
def exPort : List Nat := [0x1f, 0x90]

/-- Example network-order port bytes for 443. -/
def exPortB : List Nat := [0x01, 0xbb]

/-- Example constructed IPv4 suckaddr for 127.0.0.1:8080. -/
def exV4 : List Nat := mkSuckaddr (mkSin4 AF_INET exAddr4 exPort)

/-- Example constructed IPv4 suckaddr for 127.0.0.1:443. -/
def exV4b : List Nat := mkSuckaddr (mkSin4 AF_INET exAddr4 exPortB)

/-- Example constructed IPv6 suckaddr for [::1]:443. -/
def exV6 : List Nat := mkSuckaddr (mkSin6 AF_INET6 exAddr6 exPortB)

/-- Example suckaddr image with the validity tag and an `AF_UNIX`
family, as an OS endpoint query would produce for a Unix-domain
socket (family bytes followed by zeroed path bytes). -/
def exVUnix : List Nat := suckaddrMagicBytes ++ (famBytes AF_UNIX ++ zeros 26)

/-- Example raw `struct sockaddr_un` byte buffer: `AF_UNIX` family
followed by 108 zeroed `sun_path` bytes, 110 bytes total. -/
def exUnixSA : List Nat := famBytes AF_UNIX ++ zeros 108

/-- Example raw `struct sockaddr_in` byte buffer for 127.0.0.1:8080. -/
def exSin4 : List Nat := mkSin4 AF_INET exAddr4 exPort

instance (v : List Nat) : Decidable (zeroOutside v) :=
  decidable_of_iff (∀ i < vsa_suckaddr_len, 4 + sua_len (v.drop 4) ≤ i → v.getD i 0 = 0)
    ⟨fun h i hle hlt => h i hlt hle, fun h i hlt hle => h i hle hlt⟩

theorem memcmpBytes_self : ∀ xs : List Nat, memcmpBytes xs xs = 0
  | [] => rfl
  | x :: xs => by simp [memcmpBytes, memcmpBytes_self xs]

theorem memcmpBytes_eq_zero_iff :
    ∀ xs ys : List Nat, xs.length = ys.length →
      (memcmpBytes xs ys = 0 ↔ xs = ys) := by
  intro xs
  induction xs with
  | nil =>
    intro ys h
    cases ys with
    | nil => simp [memcmpBytes]
    | cons y ys => simp at h
  | cons x xs ih =>
    intro ys h
    cases ys with
    | nil => simp at h
    | cons y ys =>
      have h' : xs.length = ys.length := by
        simp only [List.length_cons] at h
        omega
      simp only [memcmpBytes]
      rcases Nat.lt_trichotomy x y with hlt | heq | hgt
      · have hne : x ≠ y := Nat.ne_of_lt hlt
        simp [hlt, hne]
      · subst heq
        simp [Nat.lt_irrefl, ih ys h']
      · have hne : x ≠ y := (Nat.ne_of_lt hgt).symm
        simp [Nat.lt_asymm hgt, hgt, hne]

theorem list_len2 {l : List Nat} (h : l.length = 2) :
    ∃ b0 b1, l = [b0, b1] := by
  rcases l with _ | ⟨b0, l⟩
  · simp only [List.length_nil] at h
    omega
  rcases l with _ | ⟨b1, l⟩
  · simp only [List.length_cons, List.length_nil] at h
    omega
  rcases l with _ | ⟨b2, l⟩
  · exact ⟨b0, b1, rfl⟩
  · simp only [List.length_cons] at h
    omega

theorem list_len4 {l : List Nat} (h : l.length = 4) :
    ∃ b0 b1 b2 b3, l = [b0, b1, b2, b3] := by
  rcases l with _ | ⟨b0, l⟩
  · simp only [List.length_nil] at h
    omega
  rcases l with _ | ⟨b1, l⟩
  · simp only [List.length_cons, List.length_nil] at h
    omega
  rcases l with _ | ⟨b2, l⟩
  · simp only [List.length_cons, List.length_nil] at h
    omega
  rcases l with _ | ⟨b3, l⟩
  · simp only [List.length_cons, List.length_nil] at h
    omega
  rcases l with _ | ⟨b4, l⟩
  · exact ⟨b0, b1, b2, b3, rfl⟩
  · simp only [List.length_cons] at h
    omega

theorem list_len16 {l : List Nat} (h : l.length = 16) :
    ∃ b0 b1 b2 b3 b4 b5 b6 b7 b8 b9 b10 b11 b12 b13 b14 b15,
      l = [b0, b1, b2, b3, b4, b5, b6, b7, b8, b9, b10, b11, b12, b13, b14, b15] := by
  rcases l with _ | ⟨b0, l⟩
  · simp only [List.length_nil] at h
    omega
  rcases l with _ | ⟨b1, l⟩
  · simp only [List.length_cons, List.length_nil] at h
    omega
  rcases l with _ | ⟨b2, l⟩
  · simp only [List.length_cons, List.length_nil] at h
    omega
  rcases l with _ | ⟨b3, l⟩
  · simp only [List.length_cons, List.length_nil] at h
    omega
  rcases l with _ | ⟨b4, l⟩
  · simp only [List.length_cons, List.length_nil] at h
    omega
  rcases l with _ | ⟨b5, l⟩
  · simp only [List.length_cons, List.length_nil] at h
    omega
  rcases l with _ | ⟨b6, l⟩
  · simp only [List.length_cons, List.length_nil] at h
    omega
  rcases l with _ | ⟨b7, l⟩
  · simp only [List.length_cons, List.length_nil] at h
    omega
  rcases l with _ | ⟨b8, l⟩
  · simp only [List.length_cons, List.length_nil] at h
    omega
  rcases l with _ | ⟨b9, l⟩
  · simp only [List.length_cons, List.length_nil] at h
    omega
  rcases l with _ | ⟨b10, l⟩
  · simp only [List.length_cons, List.length_nil] at h
    omega
  rcases l with _ | ⟨b11, l⟩
  · simp only [List.length_cons, List.length_nil] at h
    omega
  rcases l with _ | ⟨b12, l⟩
  · simp only [List.length_cons, List.length_nil] at h
    omega
  rcases l with _ | ⟨b13, l⟩
  · simp only [List.length_cons, List.length_nil] at h
    omega
  rcases l with _ | ⟨b14, l⟩
  · simp only [List.length_cons, List.length_nil] at h
    omega
  rcases l with _ | ⟨b15, l⟩
  · simp only [List.length_cons, List.length_nil] at h
    omega
  rcases l with _ | ⟨b16, l⟩
  · exact ⟨b0, b1, b2, b3, b4, b5, b6, b7, b8, b9, b10, b11, b12, b13, b14, b15, rfl⟩
  · simp only [List.length_cons] at h
    omega

theorem getD_zeros (n j : Nat) : (zeros n).getD j 0 = 0 := by
  simp [zeros, List.getElem?_getD_replicate_default_eq]

theorem drop4_mkSuckaddr (u : List Nat) :
    (mkSuckaddr u).drop 4 = u.take sizeof_u ++ zeros (sizeof_u - u.length) :=
  List.drop_left' rfl

theorem take4_mkSuckaddr (u : List Nat) :
    (mkSuckaddr u).take 4 = suckaddrMagicBytes :=
  List.take_left' rfl

theorem checkMagic_mkSuckaddr (u : List Nat) :
    checkMagic (mkSuckaddr u) = true := by
  simp [checkMagic, take4_mkSuckaddr]

theorem mkSuckaddr_length {u : List Nat} (h : u.length ≤ sizeof_u) :
    (mkSuckaddr u).length = vsa_suckaddr_len := by
  simp only [mkSuckaddr, List.length_append, List.take_of_length_le h,
    zeros, List.length_replicate, suckaddrMagicBytes, List.length_cons,
    List.length_nil]
  simp only [vsa_suckaddr_len, sizeof_u] at *
  omega

theorem sa_family_append {u : List Nat} (t : List Nat) (h2 : 2 ≤ u.length) :
    sa_family (u ++ t) = sa_family u := by
  unfold sa_family
  rw [List.getD_append _ _ _ _ (by omega), List.getD_append _ _ _ _ (by omega)]

theorem sua_len_append {u : List Nat} (t : List Nat) (h2 : 2 ≤ u.length) :
    sua_len (u ++ t) = sua_len u := by
  unfold sua_len
  rw [sa_family_append t h2]

theorem sua_len_cases (s : List Nat) :
    sua_len s = 0 ∨ sua_len s = sizeof_sockaddr_in ∨
      sua_len s = sizeof_sockaddr_in6 ∨ sua_len s = sizeof_sockaddr_un := by
  unfold sua_len
  split
  · exact Or.inr (Or.inl rfl)
  split
  · exact Or.inr (Or.inr (Or.inl rfl))
  split
  · exact Or.inr (Or.inr (Or.inr rfl))
  · exact Or.inl rfl

theorem zeroOutside_mkSuckaddr {u : List Nat} (h2 : 2 ≤ u.length)
    (h28 : u.length ≤ sizeof_u) (hL : u.length ≤ sua_len u) :
    zeroOutside (mkSuckaddr u) := by
  intro i hle hlt
  rw [drop4_mkSuckaddr, List.take_of_length_le h28, sua_len_append _ h2] at hle
  unfold mkSuckaddr
  rw [List.take_of_length_le h28,
    List.getD_append_right _ _ _ _ (show suckaddrMagicBytes.length ≤ i by
      simp only [suckaddrMagicBytes, List.length_cons, List.length_nil]
      omega),
    List.getD_append_right _ _ _ _ (by
      simp only [suckaddrMagicBytes, List.length_cons, List.length_nil]
      omega)]
  exact getD_zeros _ _

theorem fields4 {ab pb : List Nat} (ha : ab.length = 4) (hp : pb.length = 2) :
    checkMagic (mkSuckaddr (mkSin4 AF_INET ab pb)) = true ∧
    suaFam (mkSuckaddr (mkSin4 AF_INET ab pb)) = AF_INET ∧
    addr4 (mkSuckaddr (mkSin4 AF_INET ab pb)) = ab ∧
    port4 (mkSuckaddr (mkSin4 AF_INET ab pb)) = pb ∧
    (mkSuckaddr (mkSin4 AF_INET ab pb)).length = vsa_suckaddr_len := by
  obtain ⟨a0, a1, a2, a3, rfl⟩ := list_len4 ha
  obtain ⟨p0, p1, rfl⟩ := list_len2 hp
  exact ⟨rfl, rfl, rfl, rfl, rfl⟩

theorem fields6 {ab pb : List Nat} (ha : ab.length = 16) (hp : pb.length = 2) :
    checkMagic (mkSuckaddr (mkSin6 AF_INET6 ab pb)) = true ∧
    suaFam (mkSuckaddr (mkSin6 AF_INET6 ab pb)) = AF_INET6 ∧
    addr6 (mkSuckaddr (mkSin6 AF_INET6 ab pb)) = ab ∧
    port6 (mkSuckaddr (mkSin6 AF_INET6 ab pb)) = pb ∧
    (mkSuckaddr (mkSin6 AF_INET6 ab pb)).length = vsa_suckaddr_len := by
  obtain ⟨b0, b1, b2, b3, b4, b5, b6, b7, b8, b9, b10, b11, b12, b13, b14, b15,
    rfl⟩ := list_len16 ha
  obtain ⟨p0, p1, rfl⟩ := list_len2 hp
  exact ⟨rfl, rfl, rfl, rfl, rfl⟩

theorem sua_len_sin4_take (ab pb : List Nat) :
    sua_len ((mkSin4 AF_INET ab pb).take sizeof_sockaddr_in) =
      sizeof_sockaddr_in := rfl

theorem sua_len_sin6_take (ab pb : List Nat) :
    sua_len ((mkSin6 AF_INET6 ab pb).take sizeof_sockaddr_in6) =
      sizeof_sockaddr_in6 := rfl

theorem zeroOutside_sin4take (ab pb : List Nat) :
    zeroOutside (mkSuckaddr ((mkSin4 AF_INET ab pb).take sizeof_sockaddr_in)) := by
  apply zeroOutside_mkSuckaddr
  · simp only [List.length_take, mkSin4, famBytes, List.length_append,
      List.length_cons, List.length_nil, zeros, List.length_replicate,
      sizeof_sockaddr_in]
    omega
  · simp only [sizeof_u, sizeof_sockaddr_in]
    calc ((mkSin4 AF_INET ab pb).take 16).length ≤ 16 :=
          List.length_take_le _ _
      _ ≤ 28 := by omega
  · rw [sua_len_sin4_take]
    exact List.length_take_le _ _

theorem zeroOutside_sin6take (ab pb : List Nat) :
    zeroOutside (mkSuckaddr ((mkSin6 AF_INET6 ab pb).take sizeof_sockaddr_in6)) := by
  apply zeroOutside_mkSuckaddr
  · simp only [List.length_take, mkSin6, famBytes, List.length_append,
      List.length_cons, List.length_nil, zeros, List.length_replicate,
      sizeof_sockaddr_in6]
    omega
  · simp only [sizeof_u, sizeof_sockaddr_in6]
    exact List.length_take_le _ _
  · rw [sua_len_sin6_take]
    exact List.length_take_le _ _

theorem VSA_Build_ok_elim {s : List Nat} {sal : Nat} {v : List Nat}
    (h : VSA_Build s sal = BuildResult.ok v) :
    sua_len s = sal ∧
      (sua_len s = sizeof_sockaddr_in ∨ sua_len s = sizeof_sockaddr_in6) ∧
      v = mkSuckaddr (s.take (sua_len s)) := by
  simp only [VSA_Build] at h
  split at h
  · exact absurd h (by simp)
  · rename_i h1
    push_neg at h1
    split at h
    · rename_i h2
      simp only [BuildResult.ok.injEq] at h
      exact ⟨h1.2, Or.inl h2, h.symm⟩
    · split at h
      · rename_i h2 h3
        simp only [BuildResult.ok.injEq] at h
        exact ⟨h1.2, Or.inr h3, h.symm⟩
      · exact absurd h (by simp)

/-- Claim C1 (counterexample to the claim as stated): for the concrete
110-byte `AF_UNIX` sockaddr buffer `exUnixSA`, the family lookup yields
110, which is nonzero and equal to the given length, so the claim
asserts `Build` succeeds and returns the constructed value; the code
instead reaches the `WRONG("VSA protocol vs. size")` abort, returning
neither a value nor NULL. -/
theorem C1_counterexample :
    sua_len exUnixSA = 110 ∧ exUnixSA.length = 110 ∧ sua_len exUnixSA ≠ 0 ∧
      VSA_Build exUnixSA 110 = BuildResult.wrong ∧
      BuildResult.wrong ≠ BuildResult.ok (mkSuckaddr exUnixSA) ∧
      BuildResult.wrong ≠ BuildResult.fail := by
  refine ⟨rfl, by decide, by decide, by decide, by decide, by decide⟩

/-- Claim C1 (amended): for every raw address buffer and length, `Build`
returns no value (NULL) exactly when the family-to-size lookup yields 0
or a length different from the given length; when the lookup matches
and the family is IPv4 or IPv6 it succeeds, copying the raw bytes into
the active variant with the validity tag set; but a Unix-domain buffer
whose length equals the Unix-domain struct size triggers the internal
`WRONG` abort rather than succeeding. -/
theorem C1_build_amended (s : List Nat) (sal : Nat) (hs : s.length = sal) :
    (VSA_Build s sal = BuildResult.fail ↔
      (sua_len s = 0 ∨ sua_len s ≠ sal)) ∧
    (sua_len s = sal →
      (sua_len s = sizeof_sockaddr_in ∨ sua_len s = sizeof_sockaddr_in6) →
      VSA_Build s sal = BuildResult.ok (mkSuckaddr s)) ∧
    (sua_len s = sal → sua_len s = sizeof_sockaddr_un →
      VSA_Build s sal = BuildResult.wrong) := by
  have htake : sua_len s = sal → s.take (sua_len s) = s := by
    intro h
    rw [h, ← hs]
    exact List.take_length s
  refine ⟨⟨?_, ?_⟩, ?_, ?_⟩
  · intro h
    by_contra hc
    push_neg at hc
    obtain ⟨h0, heq⟩ := hc
    have hnor : ¬(sua_len s = 0 ∨ sua_len s ≠ sal) := by
      rintro (hx | hx)
      · exact h0 hx
      · exact hx heq
    simp only [VSA_Build, if_neg hnor] at h
    rcases sua_len_cases s with hc0 | h16 | h28 | h110
    · exact h0 hc0
    · rw [if_pos h16] at h
      exact absurd h (by simp)
    · rw [if_neg (show ¬sua_len s = sizeof_sockaddr_in by rw [h28]; decide),
        if_pos h28] at h
      exact absurd h (by simp)
    · rw [if_neg (show ¬sua_len s = sizeof_sockaddr_in by rw [h110]; decide),
        if_neg (show ¬sua_len s = sizeof_sockaddr_in6 by rw [h110]; decide)] at h
      exact absurd h (by simp)
  · intro hor
    simp only [VSA_Build, if_pos hor]
  · intro heq hor
    have hnor : ¬(sua_len s = 0 ∨ sua_len s ≠ sal) := by
      rintro (hx | hx)
      · rcases hor with h | h <;> rw [h] at hx <;> exact absurd hx (by decide)
      · exact hx heq
    simp only [VSA_Build, if_neg hnor, htake heq]
    rcases hor with h | h
    · rw [if_pos h]
    · rw [if_neg (show ¬sua_len s = sizeof_sockaddr_in by rw [h]; decide),
        if_pos h]
  · intro heq h110
    have hnor : ¬(sua_len s = 0 ∨ sua_len s ≠ sal) := by
      rintro (hx | hx)
      · rw [h110] at hx
        exact absurd hx (by decide)
      · exact hx heq
    simp only [VSA_Build, if_neg hnor,
      if_neg (show ¬sua_len s = sizeof_sockaddr_in by rw [h110]; decide),
      if_neg (show ¬sua_len s = sizeof_sockaddr_in6 by rw [h110]; decide)]

/-- Claim C1 (witness for the amended theorem): concrete instantiations
at a valid 16-byte IPv4 buffer and at a 15-byte (wrong-length) buffer. -/
theorem C1_build_amended_witness :
    VSA_Build exSin4 16 = BuildResult.ok (mkSuckaddr exSin4) ∧
      (VSA_Build exSin4 16 = BuildResult.fail ↔
        (sua_len exSin4 = 0 ∨ sua_len exSin4 ≠ 16)) ∧
      (VSA_Build (exSin4.take 15) 15 = BuildResult.fail ↔
        (sua_len (exSin4.take 15) = 0 ∨ sua_len (exSin4.take 15) ≠ 15)) :=
  ⟨(C1_build_amended exSin4 16 (by decide)).2.1 (by decide) (Or.inl (by decide)),
   (C1_build_amended exSin4 16 (by decide)).1,
   (C1_build_amended (exSin4.take 15) 15 (by decide)).1⟩

/-- Claim C2: for each supported family (IPv4 with a 4-byte address,
IPv6 with a 16-byte address) and any 2-byte network-order port,
`VSA_BuildFAP` succeeds, and on the result `VSA_Get_Proto` returns the
family, `VSA_GetPtr` yields exactly the input address bytes together
with the family, and `VSA_Port` returns the port converted to host
byte order (`ntohs`). -/
theorem C2_roundtrip (fam : Nat) (ab pb : List Nat)
    (hf : (fam = AF_INET ∧ ab.length = 4) ∨ (fam = AF_INET6 ∧ ab.length = 16))
    (hp : pb.length = 2) :
    ∃ v, VSA_BuildFAP fam (some ab) ab.length (some pb) pb.length =
        FAPResult.ok v ∧
      VSA_Get_Proto v = some fam ∧
      VSA_GetPtr (some v) = PtrResult.res (some ab) (fam : Int) ∧
      VSA_Port v = some (ntohs pb) := by
  obtain ⟨p0, p1, rfl⟩ := list_len2 hp
  rcases hf with ⟨rfl, ha⟩ | ⟨rfl, ha⟩
  · obtain ⟨a0, a1, a2, a3, rfl⟩ := list_len4 ha
    exact ⟨_, rfl, rfl, rfl, rfl⟩
  · obtain ⟨b0, b1, b2, b3, b4, b5, b6, b7, b8, b9, b10, b11, b12, b13, b14,
      b15, rfl⟩ := list_len16 ha
    exact ⟨_, rfl, rfl, rfl, rfl⟩

/-- Claim C2 (witness): the round trip at the concrete input
127.0.0.1:8080. -/
theorem C2_roundtrip_witness :
    VSA_Get_Proto exV4 = some AF_INET ∧
      VSA_GetPtr (some exV4) = PtrResult.res (some exAddr4) (AF_INET : Int) ∧
      VSA_Port exV4 = some (ntohs exPort) := by
  obtain ⟨v, hb, hproto, hptr, hport⟩ :=
    C2_roundtrip AF_INET exAddr4 exPort (Or.inl ⟨rfl, by decide⟩) (by decide)
  have hv : v = exV4 := by
    have he : VSA_BuildFAP AF_INET (some exAddr4) exAddr4.length
        (some exPort) exPort.length = FAPResult.ok exV4 := by decide
    rw [he] at hb
    injection hb with hb
    exact hb.symm
  subst hv
  exact ⟨hproto, hptr, hport⟩

/-- Claim C4: for family IPv4 or IPv6, a NULL or zero-length address or
port argument leaves the corresponding field zero and is not an error;
a non-null argument of the wrong length yields the invalid-input result
(`EINVAL`); any other family yields the unsupported-family result
(`EAFNOSUPPORT`), which is distinguishable from the invalid-length
result. -/
theorem C4_buildfap_errors :
    (∀ a p, VSA_BuildFAP AF_INET a 0 p 0 =
        FAPResult.ok (mkSuckaddr (mkSin4 AF_INET (zeros 4) (zeros 2))) ∧
      addr4 (mkSuckaddr (mkSin4 AF_INET (zeros 4) (zeros 2))) = zeros 4 ∧
      port4 (mkSuckaddr (mkSin4 AF_INET (zeros 4) (zeros 2))) = zeros 2) ∧
    (∀ a p, VSA_BuildFAP AF_INET6 a 0 p 0 =
        FAPResult.ok (mkSuckaddr (mkSin6 AF_INET6 (zeros 16) (zeros 2))) ∧
      addr6 (mkSuckaddr (mkSin6 AF_INET6 (zeros 16) (zeros 2))) = zeros 16 ∧
      port6 (mkSuckaddr (mkSin6 AF_INET6 (zeros 16) (zeros 2))) = zeros 2) ∧
    (∀ a al p pl, al ≠ 0 → al ≠ 4 →
      VSA_BuildFAP AF_INET (some a) al p pl = FAPResult.einval) ∧
    (∀ a al p pl, al ≠ 0 → al ≠ 16 →
      VSA_BuildFAP AF_INET6 (some a) al p pl = FAPResult.einval) ∧
    (∀ p pl, pl ≠ 0 → pl ≠ 2 →
      VSA_BuildFAP AF_INET none 0 (some p) pl = FAPResult.einval ∧
      VSA_BuildFAP AF_INET6 none 0 (some p) pl = FAPResult.einval) ∧
    (∀ fam a al p pl, fam ≠ AF_INET → fam ≠ AF_INET6 →
      VSA_BuildFAP fam a al p pl = FAPResult.eafnosupport) ∧
    FAPResult.einval ≠ FAPResult.eafnosupport := by
  refine ⟨?_, ?_, ?_, ?_, ?_, ?_, by decide⟩
  · intro a p
    cases a <;> cases p <;> exact ⟨rfl, rfl, rfl⟩
  · intro a p
    cases a <;> cases p <;> exact ⟨rfl, rfl, rfl⟩
  · intro a al p pl h0 h4
    simp [VSA_BuildFAP, fapArg, h0, h4]
  · intro a al p pl h0 h16
    simp [VSA_BuildFAP, fapArg, h0, h16, AF_INET, AF_INET6]
  · intro p pl h0 h2
    constructor
    · simp [VSA_BuildFAP, fapArg, h0, h2]
    · simp [VSA_BuildFAP, fapArg, h0, h2, AF_INET, AF_INET6]
  · intro fam a al p pl h4 h6
    simp [VSA_BuildFAP, h4, h6]

/-- Claim C4 (witness): concrete instantiations of each error behavior
at family 2 (IPv4), 10 (IPv6) and unsupported family 1. -/
theorem C4_buildfap_errors_witness :
    VSA_BuildFAP AF_INET none 0 none 0 =
        FAPResult.ok (mkSuckaddr (mkSin4 AF_INET (zeros 4) (zeros 2))) ∧
      VSA_BuildFAP AF_INET (some exAddr4) 3 none 0 = FAPResult.einval ∧
      VSA_BuildFAP AF_INET none 0 (some exPort) 3 = FAPResult.einval ∧
      VSA_BuildFAP AF_UNIX none 0 none 0 = FAPResult.eafnosupport ∧
      FAPResult.einval ≠ FAPResult.eafnosupport :=
  ⟨(C4_buildfap_errors.1 none none).1,
   C4_buildfap_errors.2.2.1 exAddr4 3 none 0 (by decide) (by decide),
   (C4_buildfap_errors.2.2.2.2.1 exPort 3 (by decide) (by decide)).1,
   C4_buildfap_errors.2.2.2.2.2.1 AF_UNIX none 0 none 0 (by decide) (by decide),
   C4_buildfap_errors.2.2.2.2.2.2⟩

/-- Claim C5: on a valid value (validity tag present) whose family is
neither IPv4 nor IPv6, `VSA_GetPtr` does not abort: it returns -1 and
stores NULL through the output pointer. -/
theorem C5_getptr_foreign (v : List Nat) (hm : checkMagic v = true)
    (h4 : suaFam v ≠ AF_INET) (h6 : suaFam v ≠ AF_INET6) :
    VSA_GetPtr (some v) = PtrResult.res none (-1) := by
  simp [VSA_GetPtr, hm, h4, h6]

/-- Claim C5 (witness): a magic-tagged Unix-domain value. -/
theorem C5_getptr_foreign_witness :
    VSA_GetPtr (some exVUnix) = PtrResult.res none (-1) :=
  C5_getptr_foreign exVUnix (by decide) (by decide) (by decide)

/-- Claim C7: `VSA_Compare_IP` on two sane values with families IPv4
and IPv6 respectively returns the "not equal" sentinel -1, for all
payload bytes (so no payload byte is read). -/
theorem C7_family_mismatch (v1 v2 : List Nat)
    (hs1 : VSA_Sane v1 = true) (hs2 : VSA_Sane v2 = true)
    (hf1 : suaFam v1 = AF_INET) (hf2 : suaFam v2 = AF_INET6) :
    VSA_Compare_IP v1 v2 = some (-1) := by
  simp [VSA_Compare_IP, hs1, hs2, hf1, hf2, AF_INET, AF_INET6]

/-- Claim C7 (witness): concrete IPv4 and IPv6 values. -/
theorem C7_family_mismatch_witness :
    VSA_Compare_IP exV4 exV6 = some (-1) :=
  C7_family_mismatch exV4 exV6 (by decide) (by decide) (by decide) (by decide)

/-- Claim C9: the endpoint-query wrappers return the invalid-argument
result without consulting the OS whenever the capacity differs from the
fixed value size; with the right capacity they zero-initialize the
destination, stamp the validity tag, and return the populated value
exactly when the OS call succeeds. -/
theorem C9_getname :
    (∀ os os2 l, l ≠ vsa_suckaddr_len →
      VSA_getname os l = GetnameResult.einval ∧
      VSA_getname os l = VSA_getname os2 l) ∧
    VSA_getname none vsa_suckaddr_len = GetnameResult.osfail ∧
    (∀ w, VSA_getname (some w) vsa_suckaddr_len =
        GetnameResult.ok (mkSuckaddr w) ∧
      checkMagic (mkSuckaddr w) = true) := by
  refine ⟨?_, rfl, fun w => ⟨rfl, checkMagic_mkSuckaddr w⟩⟩
  intro os os2 l hl
  constructor
  · simp [VSA_getname, hl]
  · simp [VSA_getname, hl]

/-- Claim C9 (witness): concrete instantiations with a wrong capacity
(31), and with a correct capacity and a concrete 16-byte OS result. -/
theorem C9_getname_witness :
    VSA_getname (some exSin4) 31 = GetnameResult.einval ∧
      VSA_getname none vsa_suckaddr_len = GetnameResult.osfail ∧
      VSA_getname (some exSin4) vsa_suckaddr_len =
        GetnameResult.ok (mkSuckaddr exSin4) :=
  ⟨(C9_getname.1 (some exSin4) none 31 (by decide)).1,
   C9_getname.2.1,
   (C9_getname.2.2 exSin4).1⟩

/-- Claim C10: on a valid value, `VSA_Port` returns the network-order
port field converted to host byte order for IPv4 and IPv6, and returns
0 for any other family. -/
theorem C10_port (v : List Nat) (hm : checkMagic v = true) :
    (suaFam v = AF_INET → VSA_Port v = some (ntohs (port4 v))) ∧
    (suaFam v = AF_INET6 → VSA_Port v = some (ntohs (port6 v))) ∧
    (suaFam v ≠ AF_INET → suaFam v ≠ AF_INET6 → VSA_Port v = some 0) := by
  refine ⟨fun h4 => ?_, fun h6 => ?_, fun h4 h6 => ?_⟩
  · simp [VSA_Port, hm, h4]
  · simp [VSA_Port, hm, h6, AF_INET, AF_INET6, port4, port6]
  · simp [VSA_Port, hm, h4, h6]

/-- Claim C10 (witness): the IPv4 value 127.0.0.1:8080 yields port 8080
and a magic-tagged Unix-domain value yields port 0. -/
theorem C10_port_witness :
    VSA_Port exV4 = some (ntohs (port4 exV4)) ∧
      VSA_Port exVUnix = some 0 :=
  ⟨(C10_port exV4 (by decide)).1 (by decide),
   (C10_port exVUnix (by decide)).2.2 (by decide) (by decide)⟩

/-- Claim C6: two IPv4 values built from the same address bytes but
different port bytes compare equal under the address-only comparison
(`VSA_Compare_IP` = 0) but unequal under the full byte-wise comparison
(`VSA_Compare` is not 0). -/
theorem C6_addr_vs_full_compare (ab pb1 pb2 v1 v2 : List Nat)
    (ha : ab.length = 4) (hp1 : pb1.length = 2) (hp2 : pb2.length = 2)
    (hne : pb1 ≠ pb2)
    (hv1 : VSA_BuildFAP AF_INET (some ab) 4 (some pb1) 2 = FAPResult.ok v1)
    (hv2 : VSA_BuildFAP AF_INET (some ab) 4 (some pb2) 2 = FAPResult.ok v2) :
    VSA_Compare_IP v1 v2 = some 0 ∧ VSA_Compare v1 v2 ≠ some 0 := by
  obtain ⟨a0, a1, a2, a3, rfl⟩ := list_len4 ha
  obtain ⟨p0, p1, rfl⟩ := list_len2 hp1
  obtain ⟨q0, q1, rfl⟩ := list_len2 hp2
  have e1 : VSA_BuildFAP AF_INET (some [a0, a1, a2, a3]) 4 (some [p0, p1]) 2 =
      FAPResult.ok (mkSuckaddr (mkSin4 AF_INET [a0, a1, a2, a3] [p0, p1])) := rfl
  have e2 : VSA_BuildFAP AF_INET (some [a0, a1, a2, a3]) 4 (some [q0, q1]) 2 =
      FAPResult.ok (mkSuckaddr (mkSin4 AF_INET [a0, a1, a2, a3] [q0, q1])) := rfl
  rw [e1] at hv1
  rw [e2] at hv2
  injection hv1 with hv1
  injection hv2 with hv2
  subst hv1
  subst hv2
  constructor
  · have e : VSA_Compare_IP (mkSuckaddr (mkSin4 AF_INET [a0, a1, a2, a3] [p0, p1]))
        (mkSuckaddr (mkSin4 AF_INET [a0, a1, a2, a3] [q0, q1])) =
        some (memcmpBytes [a0, a1, a2, a3] [a0, a1, a2, a3]) := rfl
    rw [e, memcmpBytes_self]
  · intro hC
    have e : VSA_Compare (mkSuckaddr (mkSin4 AF_INET [a0, a1, a2, a3] [p0, p1]))
        (mkSuckaddr (mkSin4 AF_INET [a0, a1, a2, a3] [q0, q1])) =
        some (memcmpBytes
          (mkSuckaddr (mkSin4 AF_INET [a0, a1, a2, a3] [p0, p1]))
          (mkSuckaddr (mkSin4 AF_INET [a0, a1, a2, a3] [q0, q1]))) := rfl
    rw [e] at hC
    have h0 := Option.some.inj hC
    have heq := (memcmpBytes_eq_zero_iff _ _ (by rfl)).mp h0
    have hpq : ([p0, p1] : List Nat) = [q0, q1] := congrArg port4 heq
    exact hne hpq

/-- Claim C6 (witness): 127.0.0.1:8080 versus 127.0.0.1:443. -/
theorem C6_addr_vs_full_compare_witness :
    VSA_Compare_IP exV4 exV4b = some 0 ∧ VSA_Compare exV4 exV4b ≠ some 0 :=
  C6_addr_vs_full_compare exAddr4 exPort exPortB exV4 exV4b
    (by decide) (by decide) (by decide) (by decide) (by decide) (by decide)

/-- Claim C8: for every sane value of the fixed size, `VSA_Compare`
of the value with itself is 0, and `VSA_Clone` returns a byte-exact
copy of the entire fixed-size storage, so comparing a value with its
clone also yields 0. -/
theorem C8_compare_refl_clone (v : List Nat) (hs : VSA_Sane v = true)
    (hl : v.length = vsa_suckaddr_len) :
    VSA_Compare v v = some 0 ∧ VSA_Clone v = some v ∧
    ∀ c, VSA_Clone v = some c → VSA_Compare v c = some 0 := by
  have hm : checkMagic v = true := by
    simp only [VSA_Sane, Bool.and_eq_true] at hs
    exact hs.1
  have hcmp : VSA_Compare v v = some 0 := by
    simp [VSA_Compare, hm, memcmpBytes_self]
  have hcl : VSA_Clone v = some v := by
    unfold VSA_Clone
    rw [hs]
    simp only [if_true, Option.some.injEq]
    rw [← hl]
    exact List.take_length v
  refine ⟨hcmp, hcl, fun c hc => ?_⟩
  rw [hcl] at hc
  injection hc with hc
  rw [← hc]
  exact hcmp

/-- Claim C8 (witness): the concrete IPv4 value 127.0.0.1:8080. -/
theorem C8_compare_refl_clone_witness :
    VSA_Compare exV4 exV4 = some 0 ∧ VSA_Clone exV4 = some exV4 :=
  ⟨(C8_compare_refl_clone exV4 (by decide) (by decide)).1,
   (C8_compare_refl_clone exV4 (by decide) (by decide)).2.1⟩

theorem sua_len_cases_num (s : List Nat) :
    sua_len s = 0 ∨ sua_len s = 16 ∨ sua_len s = 28 ∨ sua_len s = 110 :=
  sua_len_cases s

/-- Claim C3: every construction path zero-initializes the fixed-size
storage before writing the family payload, so every byte outside the
active variant's region of a constructor-produced value is zero
(`zeroOutside`); `VSA_Clone` preserves this; and consequently the full
byte-wise `VSA_Compare` of two `VSA_Build`-produced values is
deterministic: it is 0 exactly when the raw input buffers were equal. -/
theorem C3_zero_fill :
    (∀ s sal v, s.length = sal → VSA_Build s sal = BuildResult.ok v →
      zeroOutside v) ∧
    (∀ fam a al p pl v, VSA_BuildFAP fam a al p pl = FAPResult.ok v →
      zeroOutside v) ∧
    (∀ w v, w.length ≤ sizeof_u → sua_len w = w.length →
      VSA_getname (some w) vsa_suckaddr_len = GetnameResult.ok v →
      zeroOutside v) ∧
    (∀ v c, VSA_Clone v = some c → v.length = vsa_suckaddr_len →
      zeroOutside v → zeroOutside c) ∧
    (∀ s1 s2 sal v1 v2, s1.length = sal → s2.length = sal →
      VSA_Build s1 sal = BuildResult.ok v1 →
      VSA_Build s2 sal = BuildResult.ok v2 →
      (VSA_Compare v1 v2 = some 0 ↔ s1 = s2)) := by
  refine ⟨?_, ?_, ?_, ?_, ?_⟩
  · intro s sal v hs hb
    obtain ⟨hsal, hor, hv⟩ := VSA_Build_ok_elim hb
    have ht : s.take (sua_len s) = s := by
      rw [hsal, ← hs]
      exact List.take_length s
    rw [ht] at hv
    subst hv
    apply zeroOutside_mkSuckaddr
    · rcases hor with h | h <;> rw [hs, ← hsal, h] <;> decide
    · rcases hor with h | h <;> rw [hs, ← hsal, h] <;> decide
    · rw [hs, ← hsal]
  · intro fam a al p pl v h
    simp only [VSA_BuildFAP] at h
    split_ifs at h with hf4 hf6
    · subst hf4
      rcases hfa : fapArg a al 4 with _ | ab
      · rw [hfa] at h
        exact absurd h (by simp)
      rw [hfa] at h
      rcases hfp : fapArg p pl 2 with _ | pb
      · rw [hfp] at h
        exact absurd h (by simp)
      rw [hfp] at h
      have e : liftBuild (VSA_Build (mkSin4 AF_INET ab pb) sizeof_sockaddr_in) =
          FAPResult.ok
            (mkSuckaddr ((mkSin4 AF_INET ab pb).take sizeof_sockaddr_in)) := rfl
      have h2 : FAPResult.ok
          (mkSuckaddr ((mkSin4 AF_INET ab pb).take sizeof_sockaddr_in)) =
          FAPResult.ok v := by
        rw [← e]
        exact h
      injection h2 with h2
      rw [← h2]
      exact zeroOutside_sin4take ab pb
    · subst hf6
      rcases hfa : fapArg a al 16 with _ | ab
      · rw [hfa] at h
        exact absurd h (by simp)
      rw [hfa] at h
      rcases hfp : fapArg p pl 2 with _ | pb
      · rw [hfp] at h
        exact absurd h (by simp)
      rw [hfp] at h
      have e : liftBuild (VSA_Build (mkSin6 AF_INET6 ab pb) sizeof_sockaddr_in6) =
          FAPResult.ok
            (mkSuckaddr ((mkSin6 AF_INET6 ab pb).take sizeof_sockaddr_in6)) := rfl
      have h2 : FAPResult.ok
          (mkSuckaddr ((mkSin6 AF_INET6 ab pb).take sizeof_sockaddr_in6)) =
          FAPResult.ok v := by
        rw [← e]
        exact h
      injection h2 with h2
      rw [← h2]
      exact zeroOutside_sin6take ab pb
  · intro w v h28 hlw h
    have e : VSA_getname (some w) vsa_suckaddr_len =
        GetnameResult.ok (mkSuckaddr w) := rfl
    rw [e] at h
    injection h with h
    rw [← h]
    by_cases h0 : w.length = 0
    · rw [List.length_eq_zero.mp h0]
      decide
    · apply zeroOutside_mkSuckaddr
      · rcases sua_len_cases_num w with hc | hc | hc | hc <;> rw [hc] at hlw <;>
          omega
      · exact h28
      · exact le_of_eq hlw.symm
  · intro v c hc hlen hz
    unfold VSA_Clone at hc
    split_ifs at hc with hsane
    · injection hc with hc
      subst hc
      rw [← hlen, List.take_length]
      exact hz
  · intro s1 s2 sal v1 v2 hs1 hs2 hb1 hb2
    obtain ⟨hsal1, hor1, hv1⟩ := VSA_Build_ok_elim hb1
    obtain ⟨hsal2, hor2, hv2⟩ := VSA_Build_ok_elim hb2
    have ht1 : s1.take (sua_len s1) = s1 := by
      rw [hsal1, ← hs1]
      exact List.take_length s1
    have ht2 : s2.take (sua_len s2) = s2 := by
      rw [hsal2, ← hs2]
      exact List.take_length s2
    rw [ht1] at hv1
    rw [ht2] at hv2
    subst hv1
    subst hv2
    have h1le : s1.length ≤ sizeof_u := by
      rcases hor1 with h | h <;> rw [hs1, ← hsal1, h] <;> decide
    have h2le : s2.length ≤ sizeof_u := by
      rcases hor2 with h | h <;> rw [hs2, ← hsal2, h] <;> decide
    have hlen1 : (mkSuckaddr s1).length = vsa_suckaddr_len :=
      mkSuckaddr_length h1le
    have hlen2 : (mkSuckaddr s2).length = vsa_suckaddr_len :=
      mkSuckaddr_length h2le
    have hc : VSA_Compare (mkSuckaddr s1) (mkSuckaddr s2) =
        some (memcmpBytes ((mkSuckaddr s1).take vsa_suckaddr_len)
          ((mkSuckaddr s2).take vsa_suckaddr_len)) := by
      unfold VSA_Compare
      rw [checkMagic_mkSuckaddr, checkMagic_mkSuckaddr]
      rfl
    rw [hc, List.take_of_length_le (le_of_eq hlen1),
      List.take_of_length_le (le_of_eq hlen2), Option.some.injEq,
      memcmpBytes_eq_zero_iff _ _ (by rw [hlen1, hlen2])]
    unfold mkSuckaddr
    rw [List.take_of_length_le h1le, List.take_of_length_le h2le, hs1, hs2]
    constructor
    · intro h
      exact List.append_cancel_right (List.append_cancel_left h)
    · intro h
      rw [h]

/-- Claim C3 (witness): concrete instances of the zero-fill invariant
and the determinism consequence at the value built from a raw
127.0.0.1:8080 IPv4 sockaddr. -/
theorem C3_zero_fill_witness :
    (mkSuckaddr exSin4).getD 25 0 = 0 ∧ (mkSuckaddr exSin4).getD 31 0 = 0 ∧
      (VSA_Compare (mkSuckaddr exSin4) (mkSuckaddr exSin4) = some 0 ↔
        exSin4 = exSin4) :=
  ⟨C3_zero_fill.1 exSin4 16 (mkSuckaddr exSin4) (by decide) (by decide) 25
      (by decide) (by decide),
   C3_zero_fill.1 exSin4 16 (mkSuckaddr exSin4) (by decide) (by decide) 31
      (by decide) (by decide),
   C3_zero_fill.2.2.2.2 exSin4 exSin4 16 (mkSuckaddr exSin4) (mkSuckaddr exSin4)
      (by decide) (by decide) (by decide) (by decide)⟩

end VSA
